import Mathlib

/-!
Shallow embedding of `src/handle.hpp`, a compile-time tagged RAII wrapper
around Windows `HANDLE` values.

Modelling decisions:
* `HANDLE` raw values are machine words; we model them as `Nat`.  The code
  only compares them for equality, so no modular arithmetic is needed.
  `NULL` is `0` and `INVALID_HANDLE_VALUE` (`(HANDLE)(LONG_PTR)-1`) is
  `2 ^ 64 - 1`.
* The tag types of namespace `HandleType` become one inductive type.
* `TaggedHandle<_Tag>::GetHandleInvalidValue` contains a
  `static_assert(sizeof(_Tag) == 0, "Unhandled handle type")` on the branch
  where the tag is in neither sentinel family; instantiating it there is a
  build failure.  We model the function as returning `Option Nat`, where
  `none` is that compile-time rejection: no trait (and hence no wrapper)
  exists for such a tag.
* The `Handle<_Ty>` wrapper is a one-field state record.  Calls into the
  OS release routine are observable effects, so every mutating member
  function returns the new state together with the list of raw values the
  release routine was invoked on, in invocation order.
-/

namespace HandleHpp

/-- `NULL` as a raw `HANDLE` value. -/
def NULL_HANDLE : Nat := 0

/-- `INVALID_HANDLE_VALUE`, i.e. `(HANDLE)(LONG_PTR)-1` on a 64-bit target. -/
def INVALID_HANDLE_VALUE : Nat := 2 ^ 64 - 1

/-- The tag structs of C++ namespace `HandleType` in `handle.hpp`. -/
inductive HandleType where
  | Event
  | Mutex
  | Semaphore
  | Process
  | Thread
  | IoCompletionPort
  | Job
  | WaitableTimer
  | File
  | NamedPipe
  | MailSlot
  | FileMapping
  | Snapshot
deriving DecidableEq, Repr, Fintype

/-- The concept `HandleValueNull<_Tag>` from `handle.hpp`: the disjunction of
`std::is_same_v` checks for Event, Mutex, Process, Thread, Job,
WaitableTimer and IoCompletionPort (note: the source does NOT list
`Semaphore` here). -/
def HandleValueNull : HandleType → Bool
  | .Event => true
  | .Mutex => true
  | .Process => true
  | .Thread => true
  | .Job => true
  | .WaitableTimer => true
  | .IoCompletionPort => true
  | _ => false

/-- The concept `HandleValueInvalid<_Tag>` from `handle.hpp`: File,
NamedPipe, FileMapping, MailSlot and Snapshot. -/
def HandleValueInvalid : HandleType → Bool
  | .File => true
  | .NamedPipe => true
  | .FileMapping => true
  | .MailSlot => true
  | .Snapshot => true
  | _ => false

/-- `TaggedHandle<_Tag>::GetHandleInvalidValue()`: `nullptr` for the
`HandleValueNull` family, `INVALID_HANDLE_VALUE` for the
`HandleValueInvalid` family, and otherwise the `static_assert`
"Unhandled handle type" fires — modelled as `none` (no binary is built). -/
def GetHandleInvalidValue (t : HandleType) : Option Nat :=
  if HandleValueNull t then some NULL_HANDLE
  else if HandleValueInvalid t then some INVALID_HANDLE_VALUE
  else none

/-- The OS release routines that appear in `handle.hpp` (the generic
`::CloseHandle` used by the tagged specialization, and the routines the
`CREATE_HANDLE_TRAITS` macro instantiations name). -/
inductive OsCloseFn where
  | CloseHandle
  | closesocket
  | RegCloseKey
  | DestroyWindow
  | DestroyMenu
  | DestroyIcon
  | DeleteDC
  | DeleteObject
  | FreeLibrary
deriving DecidableEq, Repr

/-- The compile-time facts a `HandleTraits` specialization provides: the
sentinel `InvalidHandleValue` and which OS routine `Close` calls. -/
structure Traits where
  InvalidHandleValue : Nat
  CloseFn : OsCloseFn
deriving DecidableEq, Repr

/-- `HandleTraits<...>::Valid(handle)`: `handle != InvalidHandleValue`. -/
def Traits.ValidFn (tr : Traits) (handle : Nat) : Bool :=
  handle != tr.InvalidHandleValue

/-- `HandleTraits<TaggedHandle<_Tag>>`: its `InvalidHandleValue` member is
initialised from `TaggedHandle<_Tag>::GetHandleInvalidValue()` (so the
trait only instantiates when that compiles), and its `Close` member calls
`::CloseHandle` for every tag. -/
def taggedHandleTraits (t : HandleType) : Option Traits :=
  (GetHandleInvalidValue t).map (fun s => ⟨s, OsCloseFn.CloseHandle⟩)

/-- The state of a `Handle<_Ty>` wrapper: its single `m_Handle` field. -/
structure Handle where
  m_Handle : Nat
deriving DecidableEq, Repr

/-- The constructor `Handle(Type handle = Traits::InvalidHandleValue)`
called with an explicit raw value. -/
def Handle.ctor (handle : Nat) : Handle := ⟨handle⟩

/-- The constructor called with no argument: the default argument is
`Traits::InvalidHandleValue`. -/
def Handle.defaultCtor (tr : Traits) : Handle := ⟨tr.InvalidHandleValue⟩

/-- `Handle::Valid()`: returns `Traits::Valid(m_Handle)`; `const`, so the
state is returned unchanged. -/
def Handle.ValidOp (tr : Traits) (s : Handle) : Bool × Handle :=
  (tr.ValidFn s.m_Handle, s)

/-- `Handle::Close()`: if `Traits::Valid(m_Handle)`, call
`Traits::Close(m_Handle)` and reset `m_Handle` to the sentinel; otherwise
do nothing.  The second component lists the values released. -/
def Handle.Close (tr : Traits) (s : Handle) : Handle × List Nat :=
  if tr.ValidFn s.m_Handle then
    (⟨tr.InvalidHandleValue⟩, [s.m_Handle])
  else
    (s, [])

/-- `Handle::operator=(Type handle)`: if `Valid()` then `Close()`; then
`m_Handle = handle`. -/
def Handle.assign (tr : Traits) (s : Handle) (handle : Nat) : Handle × List Nat :=
  let p := if (Handle.ValidOp tr s).1 then Handle.Close tr s else (s, [])
  (⟨handle⟩, p.2)

/-- `Handle::~Handle()`: runs `Close()`; only the released values remain
observable. -/
def Handle.destruct (tr : Traits) (s : Handle) : List Nat :=
  (Handle.Close tr s).2

/-- `Handle::operator Type()`, the implicit conversion: a `const` member
returning `m_Handle`; the state is returned unchanged. -/
def Handle.convOp (s : Handle) : Nat × Handle :=
  (s.m_Handle, s)

/-- `Handle::Get()`: returns `m_Handle`. -/
def Handle.Get (s : Handle) : Nat :=
  s.m_Handle

/-- `Handle::Close()` iterated `n` times, concatenating the released
values. -/
def Handle.closeIter (tr : Traits) : Nat → Handle → Handle × List Nat
  | 0, s => (s, [])
  | n + 1, s =>
    let p := Handle.Close tr s
    let q := Handle.closeIter tr n p.1
    (q.1, p.2 ++ q.2)

/-- The mutating operations a client can perform on one live wrapper:
assignment of a raw value, or an explicit `Close()`. -/
inductive Op where
  | assign (handle : Nat)
  | close
deriving DecidableEq, Repr

/-- Run a sequence of operations on a wrapper, collecting every value the
release routine is invoked on, in order. -/
def Handle.runOps (tr : Traits) : Handle → List Op → Handle × List Nat
  | s, [] => (s, [])
  | s, Op.assign h :: rest =>
    let p := Handle.assign tr s h
    let q := Handle.runOps tr p.1 rest
    (q.1, p.2 ++ q.2)
  | s, Op.close :: rest =>
    let p := Handle.Close tr s
    let q := Handle.runOps tr p.1 rest
    (q.1, p.2 ++ q.2)

/-- All values released over a full lifetime: run the operations, then
destroy the wrapper. -/
def Handle.lifetimeCloses (tr : Traits) (s : Handle) (ops : List Op) : List Nat :=
  (Handle.runOps tr s ops).2 ++ Handle.destruct tr (Handle.runOps tr s ops).1

/-- The raw values a wrapper starting at `v0` adopts over a run: the
initial value followed by every assigned value, keeping only those that
differ from the sentinel. -/
def Handle.adopted (tr : Traits) (v0 : Nat) (ops : List Op) : List Nat :=
  (v0 :: ops.filterMap (fun op =>
    match op with
    | Op.assign h => some h
    | Op.close => none)).filter (fun h => h != tr.InvalidHandleValue)

/-! ### Helper lemmas about the wrapper operations -/

theorem Handle.close_snd (tr : Traits) (s : Handle) :
    (Handle.Close tr s).2 = if s.m_Handle ≠ tr.InvalidHandleValue then [s.m_Handle] else [] := by
  by_cases h : s.m_Handle = tr.InvalidHandleValue <;>
    simp [Handle.Close, Traits.ValidFn, h]

theorem Handle.close_fst_of_ne (tr : Traits) (s : Handle)
    (h : s.m_Handle ≠ tr.InvalidHandleValue) :
    (Handle.Close tr s).1 = ⟨tr.InvalidHandleValue⟩ := by
  simp [Handle.Close, Traits.ValidFn, h]

theorem Handle.close_of_eq (tr : Traits) (s : Handle)
    (h : s.m_Handle = tr.InvalidHandleValue) :
    Handle.Close tr s = (s, []) := by
  simp [Handle.Close, Traits.ValidFn, h]

theorem Handle.assign_eq (tr : Traits) (s : Handle) (handle : Nat) :
    Handle.assign tr s handle = (⟨handle⟩, (Handle.Close tr s).2) := by
  by_cases h : s.m_Handle = tr.InvalidHandleValue <;>
    simp [Handle.assign, Handle.ValidOp, Handle.Close, Traits.ValidFn, h]

theorem Handle.runOps_nil (tr : Traits) (s : Handle) :
    Handle.runOps tr s [] = (s, []) := rfl

theorem Handle.runOps_cons_assign (tr : Traits) (s : Handle) (h : Nat) (rest : List Op) :
    Handle.runOps tr s (Op.assign h :: rest) =
      ((Handle.runOps tr ⟨h⟩ rest).1,
        (Handle.assign tr s h).2 ++ (Handle.runOps tr ⟨h⟩ rest).2) := rfl

theorem Handle.runOps_cons_close (tr : Traits) (s : Handle) (rest : List Op) :
    Handle.runOps tr s (Op.close :: rest) =
      ((Handle.runOps tr (Handle.Close tr s).1 rest).1,
        (Handle.Close tr s).2 ++ (Handle.runOps tr (Handle.Close tr s).1 rest).2) := rfl

theorem Handle.lifetimeCloses_nil (tr : Traits) (s : Handle) :
    Handle.lifetimeCloses tr s [] = (Handle.Close tr s).2 := by
  simp [Handle.lifetimeCloses, Handle.runOps_nil, Handle.destruct]

theorem Handle.lifetimeCloses_cons_assign (tr : Traits) (s : Handle) (h : Nat) (rest : List Op) :
    Handle.lifetimeCloses tr s (Op.assign h :: rest) =
      (Handle.assign tr s h).2 ++ Handle.lifetimeCloses tr ⟨h⟩ rest := by
  simp [Handle.lifetimeCloses, Handle.runOps_cons_assign, List.append_assoc]

theorem Handle.lifetimeCloses_cons_close (tr : Traits) (s : Handle) (rest : List Op) :
    Handle.lifetimeCloses tr s (Op.close :: rest) =
      (Handle.Close tr s).2 ++ Handle.lifetimeCloses tr (Handle.Close tr s).1 rest := by
  simp [Handle.lifetimeCloses, Handle.runOps_cons_close, List.append_assoc]

theorem Handle.adopted_cons_assign (tr : Traits) (v0 h : Nat) (rest : List Op) :
    Handle.adopted tr v0 (Op.assign h :: rest) =
      (if v0 ≠ tr.InvalidHandleValue then [v0] else []) ++ Handle.adopted tr h rest := by
  by_cases hv : v0 = tr.InvalidHandleValue <;>
    simp [Handle.adopted, List.filter_cons, hv]

theorem Handle.adopted_cons_close (tr : Traits) (v0 : Nat) (rest : List Op) :
    Handle.adopted tr v0 (Op.close :: rest) = Handle.adopted tr v0 rest := by
  simp [Handle.adopted]

theorem Handle.adopted_nil (tr : Traits) (v0 : Nat) :
    Handle.adopted tr v0 [] = if v0 ≠ tr.InvalidHandleValue then [v0] else [] := by
  by_cases hv : v0 = tr.InvalidHandleValue <;>
    simp [Handle.adopted, List.filter_cons, hv]

theorem Handle.adopted_sentinel (tr : Traits) (rest : List Op) :
    Handle.adopted tr tr.InvalidHandleValue rest = Handle.adopted tr tr.InvalidHandleValue (Op.close :: rest) := by
  simp [Handle.adopted]

/-! ### Claim theorems -/

/-- Claim C1 (refuted by the source, which contradicts its own comment that
the first part of namespace `HandleType` "defaults to NULL"): the spec's
null sub-family includes Semaphore, but the `HandleValueNull` concept in
`handle.hpp` omits it, so trait resolution for Semaphore hits the
`static_assert("Unhandled handle type")` — modelled as `none` — instead of
yielding the `NULL` sentinel.  The other seven null-family categories do
resolve to `NULL`, and their default-constructed wrapper holds `NULL` and
reports `Valid() == false`. -/
theorem c1_semaphore_missing_from_null_family :
    GetHandleInvalidValue HandleType.Semaphore = none ∧
    HandleValueNull HandleType.Semaphore = false ∧
    taggedHandleTraits HandleType.Semaphore = none ∧
    ([HandleType.Event, HandleType.Mutex, HandleType.Process, HandleType.Thread,
      HandleType.Job, HandleType.WaitableTimer, HandleType.IoCompletionPort].all
      (fun t =>
        taggedHandleTraits t == some ⟨NULL_HANDLE, OsCloseFn.CloseHandle⟩ &&
        ((Handle.defaultCtor ⟨NULL_HANDLE, OsCloseFn.CloseHandle⟩).m_Handle == NULL_HANDLE) &&
        !(Handle.ValidOp ⟨NULL_HANDLE, OsCloseFn.CloseHandle⟩
            (Handle.defaultCtor ⟨NULL_HANDLE, OsCloseFn.CloseHandle⟩)).1)) = true := by
  refine ⟨by decide, by decide, by decide, by decide⟩

/-- Claim C2: over any finite sequence of operations (assignments of raw
values and explicit `Close()` calls) on one wrapper followed by its
destruction, the values the release routine is invoked on are exactly the
non-sentinel values the wrapper adopted (its initial value and every
assigned value), each exactly once, in adoption order. -/
theorem c2_close_exactly_once_per_adoption (tr : Traits) (s : Handle) (ops : List Op) :
    Handle.lifetimeCloses tr s ops = Handle.adopted tr s.m_Handle ops := by
  induction ops generalizing s with
  | nil => rw [Handle.lifetimeCloses_nil, Handle.close_snd, Handle.adopted_nil]
  | cons op rest ih =>
    cases op with
    | assign h =>
      simp only [Handle.lifetimeCloses_cons_assign, Handle.assign_eq, Handle.close_snd,
        Handle.adopted_cons_assign, ih]
    | close =>
      by_cases hv : s.m_Handle = tr.InvalidHandleValue
      · rw [Handle.lifetimeCloses_cons_close, Handle.close_of_eq tr s hv,
          Handle.adopted_cons_close]
        simpa using ih s
      · rw [Handle.lifetimeCloses_cons_close, Handle.close_fst_of_ne tr s hv,
          Handle.close_snd, Handle.adopted_cons_close, ih]
        simp [Handle.adopted, List.filter_cons, hv]

/-- Claim C3: `Close()` on a wrapper holding a non-sentinel value invokes the
release routine exactly once with that value and resets the held value to
the sentinel, after which `Valid()` is false; on a wrapper already holding
the sentinel, any number of `Close()` calls invoke the release routine zero
times and leave the wrapper unchanged (hence invalid). -/
theorem c3_close_once_then_idempotent (tr : Traits) (s : Handle) :
    (s.m_Handle ≠ tr.InvalidHandleValue →
      Handle.Close tr s = (⟨tr.InvalidHandleValue⟩, [s.m_Handle]) ∧
      (Handle.ValidOp tr (Handle.Close tr s).1).1 = false) ∧
    (s.m_Handle = tr.InvalidHandleValue →
      ∀ n, Handle.closeIter tr n s = (s, [])) := by
  constructor
  · intro h
    constructor
    · simp [Handle.Close, Traits.ValidFn, h]
    · simp [Handle.Close, Traits.ValidFn, h, Handle.ValidOp]
  · intro h n
    induction n with
    | zero => rfl
    | succ n ih => simp [Handle.closeIter, Handle.close_of_eq tr s h, ih]

/-- Concrete instantiation of the C3 theorem: closing a wrapper holding 42
(sentinel 0) releases 42 once and invalidates; three closes of an invalid
wrapper release nothing. -/
theorem c3_witness :
    Handle.Close ⟨0, OsCloseFn.CloseHandle⟩ ⟨42⟩ = (⟨0⟩, [42]) ∧
    Handle.closeIter ⟨0, OsCloseFn.CloseHandle⟩ 3 ⟨0⟩ = (⟨0⟩, []) :=
  ⟨((c3_close_once_then_idempotent ⟨0, OsCloseFn.CloseHandle⟩ ⟨42⟩).1 (by decide)).1,
   (c3_close_once_then_idempotent ⟨0, OsCloseFn.CloseHandle⟩ ⟨0⟩).2 rfl 3⟩

/-- Claim C4: assigning `raw2` to a wrapper holding non-sentinel `raw1`
invokes the release routine exactly once with `raw1`, and the wrapper then
holds `raw2` (`Get() == raw2`). -/
theorem c4_assign_releases_previous (tr : Traits) (raw1 raw2 : Nat)
    (h : raw1 ≠ tr.InvalidHandleValue) :
    Handle.assign tr ⟨raw1⟩ raw2 = (⟨raw2⟩, [raw1]) ∧
    Handle.Get (Handle.assign tr ⟨raw1⟩ raw2).1 = raw2 := by
  refine ⟨?_, rfl⟩
  rw [Handle.assign_eq, Handle.close_snd]
  simp [h]

/-- Concrete instantiation of the C4 theorem: assigning 7 over 42 (sentinel
0) releases 42 once and then holds 7. -/
theorem c4_witness :
    Handle.assign ⟨0, OsCloseFn.CloseHandle⟩ ⟨42⟩ 7 = (⟨7⟩, [42]) ∧
    Handle.Get (Handle.assign ⟨0, OsCloseFn.CloseHandle⟩ ⟨42⟩ 7).1 = 7 :=
  c4_assign_releases_previous ⟨0, OsCloseFn.CloseHandle⟩ 42 7 (by decide)

/-- Claim C5: destruction runs `Close()`: it invokes the release routine
exactly once with the held value when that value is not the sentinel, and
zero times when it is. -/
theorem c5_destruct_close_semantics (tr : Traits) (s : Handle) :
    (s.m_Handle ≠ tr.InvalidHandleValue → Handle.destruct tr s = [s.m_Handle]) ∧
    (s.m_Handle = tr.InvalidHandleValue → Handle.destruct tr s = []) := by
  constructor <;> intro h <;> simp [Handle.destruct, Handle.close_snd, h]

/-- Concrete instantiation of the C5 theorem: destroying a wrapper holding
42 (sentinel 0) releases 42; destroying one holding the sentinel releases
nothing. -/
theorem c5_witness :
    Handle.destruct ⟨0, OsCloseFn.CloseHandle⟩ ⟨42⟩ = [42] ∧
    Handle.destruct ⟨0, OsCloseFn.CloseHandle⟩ ⟨0⟩ = [] :=
  ⟨(c5_destruct_close_semantics ⟨0, OsCloseFn.CloseHandle⟩ ⟨42⟩).1 (by decide),
   (c5_destruct_close_semantics ⟨0, OsCloseFn.CloseHandle⟩ ⟨0⟩).2 rfl⟩

/-- Claim C6: for every category whose traits resolve, `Valid()` is true
exactly when the held value differs from that category's sentinel, and
`Valid()` (a `const` member) leaves the state unchanged. -/
theorem c6_valid_iff_ne_sentinel (t : HandleType) (tr : Traits)
    (_ht : taggedHandleTraits t = some tr) (raw : Nat) (s : Handle) :
    ((Handle.ValidOp tr ⟨raw⟩).1 = true ↔ raw ≠ tr.InvalidHandleValue) ∧
    (Handle.ValidOp tr s).2 = s :=
  ⟨by simp [Handle.ValidOp, Traits.ValidFn], rfl⟩

/-- Concrete instantiation of the C6 theorem at the Event category: a held
value of 5 is valid exactly because 5 is not the NULL sentinel. -/
theorem c6_witness :
    ((Handle.ValidOp ⟨NULL_HANDLE, OsCloseFn.CloseHandle⟩ ⟨5⟩).1 = true ↔
      (5 : Nat) ≠ (⟨NULL_HANDLE, OsCloseFn.CloseHandle⟩ : Traits).InvalidHandleValue) ∧
    (Handle.ValidOp ⟨NULL_HANDLE, OsCloseFn.CloseHandle⟩ ⟨5⟩).2 = ⟨5⟩ :=
  c6_valid_iff_ne_sentinel HandleType.Event ⟨NULL_HANDLE, OsCloseFn.CloseHandle⟩ rfl 5 ⟨5⟩

/-- Claim C7: a tag belonging to neither sentinel family has no trait
resolution: `GetHandleInvalidValue` has no value (the `static_assert` fires
during the build, so no binary is produced) and no
`HandleTraits<TaggedHandle<_Tag>>` instance — hence no wrapper — exists;
nothing is deferred to run time. -/
theorem c7_unregistered_tag_rejected (t : HandleType)
    (h1 : HandleValueNull t = false) (h2 : HandleValueInvalid t = false) :
    GetHandleInvalidValue t = none ∧ taggedHandleTraits t = none := by
  simp [GetHandleInvalidValue, taggedHandleTraits, h1, h2]

/-- Concrete instantiation of the C7 theorem: Semaphore is in neither family
and is rejected at build time. -/
theorem c7_witness :
    GetHandleInvalidValue HandleType.Semaphore = none ∧
    taggedHandleTraits HandleType.Semaphore = none :=
  c7_unregistered_tag_rejected HandleType.Semaphore (by decide) (by decide)

/-- Claim C8: the implicit conversion `operator Type()` returns the held
value, agrees with `Get()`, leaves the state unchanged, and transfers no
ownership: after converting, destruction still releases a valid held
value. -/
theorem c8_conversion_no_ownership_transfer (tr : Traits) (s : Handle) :
    (Handle.convOp s).1 = Handle.Get s ∧
    (Handle.convOp s).2 = s ∧
    (s.m_Handle ≠ tr.InvalidHandleValue →
      Handle.destruct tr (Handle.convOp s).2 = [s.m_Handle]) := by
  refine ⟨rfl, rfl, fun h => ?_⟩
  simp [Handle.destruct, Handle.convOp, Handle.close_snd, h]

/-- Concrete instantiation of the C8 theorem: converting a wrapper holding
42 (sentinel 0) yields 42, keeps the state, and destruction still releases
42. -/
theorem c8_witness :
    (Handle.convOp ⟨42⟩).1 = Handle.Get ⟨42⟩ ∧
    (Handle.convOp ⟨42⟩).2 = (⟨42⟩ : Handle) ∧
    ((42 : Nat) ≠ (⟨0, OsCloseFn.CloseHandle⟩ : Traits).InvalidHandleValue →
      Handle.destruct ⟨0, OsCloseFn.CloseHandle⟩ (Handle.convOp ⟨42⟩).2 = [42]) :=
  c8_conversion_no_ownership_transfer ⟨0, OsCloseFn.CloseHandle⟩ ⟨42⟩

/-- Claim C9: assigning the sentinel to a wrapper holding non-sentinel
`raw1` behaves exactly like `Close()`: the same state and the same single
release of `raw1`, the wrapper ends up invalid, and destroying it
afterwards releases nothing. -/
theorem c9_assign_sentinel_equals_close (tr : Traits) (raw1 : Nat)
    (h : raw1 ≠ tr.InvalidHandleValue) :
    Handle.assign tr ⟨raw1⟩ tr.InvalidHandleValue = Handle.Close tr ⟨raw1⟩ ∧
    (Handle.ValidOp tr (Handle.assign tr ⟨raw1⟩ tr.InvalidHandleValue).1).1 = false ∧
    Handle.destruct tr (Handle.assign tr ⟨raw1⟩ tr.InvalidHandleValue).1 = [] := by
  refine ⟨?_, ?_, ?_⟩ <;>
    simp [Handle.assign_eq, Handle.Close, Traits.ValidFn, h, Handle.ValidOp, Handle.destruct]

/-- Concrete instantiation of the C9 theorem: assigning sentinel 0 over 42
equals closing, leaves the wrapper invalid, and destruction then releases
nothing. -/
theorem c9_witness :
    Handle.assign ⟨0, OsCloseFn.CloseHandle⟩ ⟨42⟩
        (⟨0, OsCloseFn.CloseHandle⟩ : Traits).InvalidHandleValue =
      Handle.Close ⟨0, OsCloseFn.CloseHandle⟩ ⟨42⟩ ∧
    (Handle.ValidOp ⟨0, OsCloseFn.CloseHandle⟩
      (Handle.assign ⟨0, OsCloseFn.CloseHandle⟩ ⟨42⟩
        (⟨0, OsCloseFn.CloseHandle⟩ : Traits).InvalidHandleValue).1).1 = false ∧
    Handle.destruct ⟨0, OsCloseFn.CloseHandle⟩
      (Handle.assign ⟨0, OsCloseFn.CloseHandle⟩ ⟨42⟩
        (⟨0, OsCloseFn.CloseHandle⟩ : Traits).InvalidHandleValue).1 = [] :=
  c9_assign_sentinel_equals_close ⟨0, OsCloseFn.CloseHandle⟩ 42 (by decide)

/-- Claim C10: every tagged category whose traits resolve gets the same
single release routine, `::CloseHandle` — the tag influences only the
sentinel — and all twelve resolvable tagged categories are checked
explicitly. -/
theorem c10_tagged_close_is_CloseHandle :
    (∀ t : HandleType, ∀ tr : Traits, taggedHandleTraits t = some tr →
      tr.CloseFn = OsCloseFn.CloseHandle) ∧
    ([HandleType.Event, HandleType.Mutex, HandleType.Process, HandleType.Thread,
      HandleType.Job, HandleType.WaitableTimer, HandleType.IoCompletionPort,
      HandleType.File, HandleType.NamedPipe, HandleType.MailSlot,
      HandleType.FileMapping, HandleType.Snapshot].all
        (fun t => (taggedHandleTraits t).map Traits.CloseFn == some OsCloseFn.CloseHandle)) = true := by
  constructor
  · intro t tr h
    unfold taggedHandleTraits at h
    cases hg : GetHandleInvalidValue t with
    | none => rw [hg] at h; simp at h
    | some s =>
      rw [hg] at h
      simp only [Option.map_some', Option.some.injEq] at h
      rw [← h]
  · decide

/-- Concrete instantiation of the C10 theorem at the File category. -/
theorem c10_witness :
    (⟨INVALID_HANDLE_VALUE, OsCloseFn.CloseHandle⟩ : Traits).CloseFn = OsCloseFn.CloseHandle :=
  c10_tagged_close_is_CloseHandle.1 HandleType.File
    ⟨INVALID_HANDLE_VALUE, OsCloseFn.CloseHandle⟩ rfl

end HandleHpp
